import Mathlib

/-!
Shallow embedding of `src/perkinelmer.py`, the host-side driver for the
Perkin Elmer 200-series quaternary LC pump (`class LC200Q`).

The serial transport is modelled as a scripted wire: `sent` records every
line written to the device, `resp` holds the lines the device will return,
in order; an exhausted script reads as the empty string (a read timeout).
Python numbers are modelled as `ℚ` (and `ℤ` where the code produces
integers); fallible operations return `Except` and every operation also
returns the wire, so that side effects performed before an exception stay
visible, exactly as they do to a Python caller.
-/

set_option autoImplicit false

deriving instance DecidableEq for Except

namespace PE200

/-- Error taxonomy of the driver: the `LCPumpError` subclasses declared at
the top of the source (`BadParam`, docstring "Error 3"; `BadCmd`, docstring
"Error 9"; `MethodError`) together with the Python built-in exceptions the
code can raise (`TypeError`, `ValueError`, `IndexError`). -/
inductive PErr where
  | badCmd
  | badParam
  | methodError
  | typeError
  | valueError
  | indexError
deriving DecidableEq, Repr

/-- The serial line: lines written so far and the device's scripted
responses still to be read. -/
structure Wire where
  sent : List String
  resp : List String
deriving DecidableEq, Repr

/-- One `ser.readline()` call: pop the next scripted line, or return the
empty string (a timeout) when the script is exhausted. -/
def readline : List String → String × List String
  | [] => ("", [])
  | l :: ls => (l, ls)

/-- Whitespace as Python's `str.strip` family sees it (the characters that
occur in this protocol). -/
def isWS (c : Char) : Bool := c = ' ' || c = '\t' || c = '\n' || c = '\r'

/-- Python `s.strip()`. -/
def pyStrip (s : String) : String :=
  ⟨(((s.data.dropWhile isWS).reverse).dropWhile isWS).reverse⟩

/-- Python `s.rstrip()`. -/
def pyRstrip (s : String) : String :=
  ⟨((s.data.reverse).dropWhile isWS).reverse⟩

/-- Split a character list at every occurrence of `sep` (Python
`str.split(sep)` with a one-character separator keeps empty fields). -/
def splitChar (sep : Char) : List Char → List (List Char)
  | [] => [[]]
  | c :: cs =>
    let r := splitChar sep cs
    if c = sep then [] :: r
    else
      match r with
      | [] => [[c]]
      | h :: t => (c :: h) :: t

/-- Python `s.split(',')`. -/
def pySplitComma (s : String) : List String :=
  (splitChar ',' s.data).map String.mk

/-- Decimal value of a digit run (`none` as soon as a non-digit occurs). -/
def digitsVal (acc : ℕ) : List Char → Option ℕ
  | [] => some acc
  | c :: cs =>
    if 48 ≤ c.toNat ∧ c.toNat ≤ 57 then digitsVal (acc * 10 + (c.toNat - 48)) cs
    else none

/-- Python `int(s)` on a string: an optionally `-`-signed digit string
parses, anything else raises `ValueError` (the code never passes strings
with a `+` sign or surrounding whitespace to `int`). -/
def pyIntOfStr (s : String) : Option ℤ :=
  match s.data with
  | [] => none
  | '-' :: rest =>
    match rest with
    | [] => none
    | _ => (digitsVal 0 rest).map fun n => -(n : ℤ)
  | l => (digitsVal 0 l).map fun n => (n : ℤ)

/-- Truncation toward zero, the conversion Python's `int()` (and hence the
`%d` format) applies to a number. -/
def pyTrunc (q : ℚ) : ℤ := q.num.tdiv q.den

/-- Source `LC200Q.cmd` (lines 177-195): write `cmd + data + eol`, read one
line, stripping it and retrying the read exactly once if it was empty, then
classify: a literal `9` raises `BadCmd`; a literal `3` with a command other
than `a`/`c` raises - in the source - `BadCmd` again (the message built
there says "Invalid Parameter" but the `raise` names `BadCmd`, not
`BadParam`); anything else is success, returned as `"cmd: resp\n"`.  The
`_flush` call on the error paths only prints pending bytes, and the
`lastCmd` attribute and `debug` printing have no observable effect, so none
of these is modelled. -/
def cmd (c data : String) (w : Wire) : Except PErr String × Wire :=
  let sent := w.sent ++ [c ++ data ++ "\n"]
  let rd1 := readline w.resp
  let tmp1 := pyStrip rd1.1
  let rd2 := if tmp1 ≠ "" then (tmp1, rd1.2)
             else (pyStrip (readline rd1.2).1, (readline rd1.2).2)
  let tmp := rd2.1
  if tmp = "9" then (.error .badCmd, ⟨sent, rd2.2⟩)
  else if tmp = "3" ∧ ¬(c = "a" ∨ c = "c") then (.error .badCmd, ⟨sent, rd2.2⟩)
  else (.ok (c ++ ": " ++ tmp ++ "\n"), ⟨sent, rd2.2⟩)

/-- Source `LC200Q.status` (lines 207-225) with `status_type=None`:
`self.cmd('e').rstrip().split(',')`. -/
def status (w : Wire) : Except PErr (List String) × Wire :=
  match cmd "e" "" w with
  | (.error e, w') => (.error e, w')
  | (.ok s, w') => (.ok (pySplitComma (pyRstrip s)), w')

/-- Source `LC200Q.status` with an integer `status_type`: index into the
split fields (an out-of-range index is a Python `IndexError`). -/
def statusAt (i : Nat) (w : Wire) : Except PErr String × Wire :=
  match status w with
  | (.error e, w') => (.error e, w')
  | (.ok l, w') =>
    match l.get? i with
    | none => (.error .indexError, w')
    | some f => (.ok f, w')

/-- Python `int` applied to a protocol field, as an `Except`. -/
def pyInt (s : String) : Except PErr ℤ :=
  match pyIntOfStr s with
  | some n => .ok n
  | none => .error .valueError

/-- Source `LC200Q.state` (lines 202-205): `int(self.status(1))`. -/
def state (w : Wire) : Except PErr ℤ × Wire :=
  match statusAt 1 w with
  | (.error e, w') => (.error e, w')
  | (.ok f, w') => (pyInt f, w')

/-- Source `LC200Q.pressure` (lines 197-200): `int(self.status(9))`. -/
def pressure (w : Wire) : Except PErr ℤ × Wire :=
  match statusAt 9 w with
  | (.error e, w') => (.error e, w')
  | (.ok f, w') => (pyInt f, w')

/-- Source `LC200Q.start` (lines 244-247): query the state and send `S`
only when it equals 0 (`if self.state() is 0`; `state()` returns a small
`int`, for which CPython's `is` agrees with `==`). -/
def start (w : Wire) : Except PErr Unit × Wire :=
  match state w with
  | (.error e, w') => (.error e, w')
  | (.ok n, w') =>
    if n = 0 then
      let r := cmd "S" "" w'
      (r.1.map fun _ => (), r.2)
    else (.ok (), w')

/-- A pump attribute slot: either a number, or one of the Python builtin
functions `min` / `max`, which is what `__init__` actually stores in the
two pressure slots. -/
inductive PAttr where
  | num (q : ℚ)
  | builtinMin
  | builtinMax
deriving DecidableEq, Repr

/-- The controller state `_method` reads: the three pressure-limit
attributes. -/
structure Pump where
  minPressure : PAttr
  maxPressure : PAttr
  rdy : PAttr
deriving DecidableEq, Repr

/-- Source `LC200Q.__init__` (lines 114-120): `self.minPressure = min` and
`self.maxPressure = max` assign the Python *builtins* `min` and `max`, not
the `min_pressure` / `max_pressure` parameters (which are never used);
`self.rdy = rdy` stores the parameter. -/
def init (min_pressure max_pressure rdy : ℚ) : Pump :=
  { minPressure := .builtinMin, maxPressure := .builtinMax, rdy := .num rdy }

/-- Formatting one value under `%.1d`: a number is truncated to an integer
and printed; a builtin function raises `TypeError`. -/
def fmtIntField : PAttr → Option String
  | .num q => some (toString (pyTrunc q))
  | .builtinMin => none
  | .builtinMax => none

/-- The pressure-limit record
`'B,%.1d,%.1d,%.1d' % (self.minPressure, self.maxPressure, self.rdy)`
(source lines 155-158); `none` is the `TypeError` raised while
formatting. -/
def limitRecord (p : Pump) : Option String :=
  match fmtIntField p.minPressure, fmtIntField p.maxPressure, fmtIntField p.rdy with
  | some a, some b, some r => some ("B," ++ a ++ "," ++ b ++ "," ++ r)
  | _, _, _ => none

/-- The idle filler record `_method` pads short methods with
(source line 154). -/
def fillerStep : String := "A,0.0,0.01,0.0,0.0,0.0,100.0,0"

/-- The send loop `[cmd(i[0], i[1:]) for i in cmd_list]` (source line 163):
send each record, stopping at the first exception. -/
def sendRecords : List String → Wire → Except PErr (List String) × Wire
  | [], w => (.ok [], w)
  | i :: rest, w =>
    match cmd (i.take 1) (i.drop 1) w with
    | (.error e, w') => (.error e, w')
    | (.ok s, w') =>
      match sendRecords rest w' with
      | (.error e, w'') => (.error e, w'')
      | (.ok ss, w'') => (.ok (s :: ss), w'')

/-- Source `LC200Q.reset` (lines 227-239): write three bare line
terminators, flush the input buffer (only discards already-received bytes;
no effect on the scripted future responses), send `r`, optionally `P`,
then `H`.  The `except` clause only prints a message before re-raising, so
errors propagate unchanged. -/
def reset (seize : Bool) (w : Wire) : Except PErr Unit × Wire :=
  let w1 : Wire := ⟨w.sent ++ ["\n\n\n"], w.resp⟩
  match cmd "r" "" w1 with
  | (.error e, w2) => (.error e, w2)
  | (.ok _, w2) =>
    let rs := if seize then cmd "P" "" w2 else (.ok "", w2)
    match rs.1 with
    | .error e => (.error e, rs.2)
    | .ok _ =>
      match cmd "H" "" rs.2 with
      | (.error e, w4) => (.error e, w4)
      | (.ok _, w4) => (.ok (), w4)

/-- Result of `_method`: the Python return value or the exception raised,
the final contents of the caller's step list (which the code mutates in
place through the alias `cmd_list = steps`), the wire, and how many times
`reset` ran. -/
structure MOut where
  res : Except PErr String
  stepsOut : List String
  wire : Wire
  resets : Nat
deriving Repr

/-- The three trailing commands `t`, `l`, `H` sent after a (supposedly)
successful transfer (source lines 172-174). -/
def trailing (ret : String) (stepsOut : List String) (w : Wire) (resets : Nat) : MOut :=
  match cmd "t" "" w with
  | (.error e, w1) => ⟨.error e, stepsOut, w1, resets⟩
  | (.ok st, w1) =>
    match cmd "l" "" w1 with
    | (.error e, w2) => ⟨.error e, stepsOut, w2, resets⟩
    | (.ok sl, w2) =>
      match cmd "H" "" w2 with
      | (.error e, w3) => ⟨.error e, stepsOut, w3, resets⟩
      | (.ok sh, w3) => ⟨.ok (ret ++ st ++ sl ++ sh), stepsOut, w3, resets⟩

/-- Source `LC200Q._method` (lines 145-175), with `fuel` the number of
retries still allowed (`retry=True` maps to 1, the recursive call passes
`False`, i.e. 0).  Steps, in source order: reject more than 10 steps; pad
the caller's list in place to 10 entries (`cmd_list = steps` aliases, and
`+=` extends in place); append the pressure-limit record, whose
construction raises `TypeError` when the pressure attributes hold the
builtins; seize control with `P`; send the 11 records; on `BadCmd`/
`BadParam` reset and (given fuel) recurse on the *same, already padded*
list; finish with `t`, `l`, `H`.  After a successful recursive retry the
outer frame falls through and sends `t`, `l`, `H` again, its `ret` holding
only the `P` response, exactly as the Python control flow does. -/
def methodN (p : Pump) : Nat → List String → Wire → Nat → MOut
  | fuel, steps, w, resets =>
    if steps.length > 10 then ⟨.error .methodError, steps, w, resets⟩
    else
      let cmdList := steps ++ List.replicate (10 - steps.length) fillerStep
      match limitRecord p with
      | none => ⟨.error .typeError, cmdList, w, resets⟩
      | some lim =>
        let cmdList2 := cmdList ++ [lim]
        match cmd "P" "" w with
        | (.error e, w0) => ⟨.error e, cmdList2, w0, resets⟩
        | (.ok retP, w0) =>
          match sendRecords cmdList2 w0 with
          | (.ok body, w1) =>
            trailing (retP ++ String.intercalate "\n" body) cmdList2 w1 resets
          | (.error e, w1) =>
            if e = .badCmd ∨ e = .badParam then
              match reset false w1 with
              | (.error e2, w2) => ⟨.error e2, cmdList2, w2, resets + 1⟩
              | (.ok _, w2) =>
                match fuel with
                | 0 => ⟨.error e, cmdList2, w2, resets + 1⟩
                | fuel' + 1 =>
                  let inner := methodN p fuel' cmdList2 w2 (resets + 1)
                  match inner.res with
                  | .error e3 => ⟨.error e3, inner.stepsOut, inner.wire, inner.resets⟩
                  | .ok _ => trailing retP inner.stepsOut inner.wire inner.resets
            else ⟨.error e, cmdList2, w1, resets⟩

/-- Source `LC200Q._method` at its Python signature:
`_method(steps, events=None, retry=True)` (`events` is unused). -/
def method (p : Pump) (steps : List String) (retry : Bool) (w : Wire) : MOut :=
  methodN p (if retry then 1 else 0) steps w 0

/-- A Python value as it can reach `gradient`'s `rate` argument: a number,
or a tuple of numbers (the shape `flow` expects, where
`rate + tuple(abcd_proportions)` concatenates). -/
inductive PyV where
  | num (q : ℚ)
  | tup (l : List ℚ)
deriving DecidableEq, Repr

/-- Python `rate + tuple(abcd)` (source lines 135 and 139): tuple
concatenation when `rate` is a tuple; a number on the left raises
`TypeError`. -/
def pyAddTup : PyV → List ℚ → Option (List ℚ)
  | .tup r, l => some (r ++ l)
  | .num _, _ => none

/-- Source line 132: `curve = 1 if curve < 1 else 9 if curve > 9 else
curve`. -/
def clampCurve (c : ℚ) : ℚ := if c < 1 then 1 else if c > 9 then 9 else c

/-- The integer the `%d` slot of `gradient`'s ramp step receives:
`10 * curve` after clamping, truncated by `%d` conversion
(source lines 132 and 137-138). -/
def gradientCurveField (c : ℚ) : ℤ := pyTrunc (10 * clampCurve c)

/-- Format `'A,1.0,%.2f,%s,%s,%s,%s,0' % c1_args` (source line 136): the
argument tuple must supply exactly 5 values (all numbers here); a wrong
arity raises `TypeError`. -/
def fmtHold (args : List ℚ) : Option (List ℚ) :=
  if args.length = 5 then some args else none

/-- One `'%.2f'` slot: accepts a number; a tuple argument raises
`TypeError`. -/
def fmtF2 : PyV → Option ℚ
  | .num q => some q
  | .tup _ => none

/-- Step construction of `LC200Q.gradient` (source lines 129-140).  The
three records built are, per the source: `c1_args = rate +
tuple(initial_abcd)` formatted into the initial hold, `c2_args = (t, rate)
+ tuple(final_abcd) + (10 * curve,)` into the ramp (its second `%.2f` slot
receives `rate` itself), and `c3_args = (rate,) + final_abcd` into the
final hold at time 999 (its `%.2f` slot again receives `rate`).  Each
record is returned as the list of its format-slot values. -/
def gradientSteps (t : ℚ) (rate : PyV) (initial final : List ℚ) (curve : ℚ) :
    Except PErr (List (List ℚ)) :=
  let curve := clampCurve curve
  match pyAddTup rate initial with
  | none => .error .typeError
  | some c1 =>
    match fmtHold c1 with
    | none => .error .typeError
    | some s1 =>
      match fmtF2 rate with
      | none => .error .typeError
      | some r =>
        let s2 := [t, r] ++ final ++ [((gradientCurveField curve : ℤ) : ℚ)]
        match fmtF2 rate with
        | none => .error .typeError
        | some r3 => .ok [s1, s2, [(999 : ℚ), r3] ++ final]

/-- One wire-format method step record, by the values its format slots
carry. -/
structure StepRec where
  t : ℚ
  flow : ℚ
  pctA : ℚ
  pctB : ℚ
  pctC : ℚ
  pctD : ℚ
  curve : ℤ
deriving DecidableEq, Repr

/-- Source `LC200Q._step` (lines 309-313): when the four proportions do not
sum to 100, recompute `D = 100 - (A + B + C)`; then fill the format
`'A,%.2f,%.2f,%.1f,%.1f,%.1f,%.1f,%d'` with `(t, flow, A, B, C, D,
10 * curve)`. -/
def stepRec (t fl A B C D curve : ℚ) : StepRec :=
  let D' := if A + B + C + D ≠ 100 then 100 - (A + B + C) else D
  ⟨t, fl, A, B, C, D', pyTrunc (10 * curve)⟩

/-- The three-step program of the claim scenario for method upload with
retry: a hold, a ramp and a final hold. -/
def retrySteps : List String :=
  ["A,1.0,1.00,25.0,25.0,25.0,25.0,0",
   "A,5.00,1.00,0.0,0.0,0.0,100.0,10",
   "A,999,1.00,0.0,0.0,0.0,100.0,0"]

/-- A device script that answers `9` to the third record of the first pass
and `ok` to everything else, with enough `ok` lines left for an entire
second pass. -/
def retryScript : List String := ["ok", "ok", "ok", "9"] ++ List.replicate 22 "ok"

end PE200

namespace PE200

/-! Helper lemmas shared between the claim theorems. -/

/-- Truncation agrees with the floor on nonnegative rationals. -/
theorem pyTrunc_eq_floor (q : ℚ) (h : 0 ≤ q) : pyTrunc q = ⌊q⌋ := by
  unfold pyTrunc
  rw [Rat.floor_def]
  exact Int.tdiv_eq_ediv (Rat.num_nonneg.mpr h) (Int.natCast_nonneg q.den)

/-- Whatever the classification, `cmd` first writes its line. -/
theorem cmd_sent (c data : String) (w : Wire) :
    ((cmd c data w).2).sent = w.sent ++ [c ++ data ++ "\n"] := by
  unfold cmd
  dsimp only
  split
  · split
    · rfl
    · split <;> rfl
  · split
    · rfl
    · split <;> rfl

/-- With more than 10 steps, `_method` raises `MethodError` at once,
leaving every part of the state untouched. -/
theorem methodN_oversize (p : Pump) (fuel : Nat) (steps : List String) (w : Wire)
    (resets : Nat) (h : steps.length > 10) :
    methodN p fuel steps w resets = ⟨.error .methodError, steps, w, resets⟩ := by
  unfold methodN
  rw [if_pos h]

/-- With at most 10 steps but an unbuildable pressure-limit record,
`_method` pads the list in place and then raises `TypeError` before any
transmission. -/
theorem methodN_limit_none (p : Pump) (fuel : Nat) (steps : List String) (w : Wire)
    (resets : Nat) (h : ¬ steps.length > 10) (hp : limitRecord p = none) :
    methodN p fuel steps w resets
      = ⟨.error .typeError, steps ++ List.replicate (10 - steps.length) fillerStep,
         w, resets⟩ := by
  unfold methodN
  rw [if_neg h, hp]

/-! The claim theorems. -/

/-- C1: for every command execution, a device response of the literal `9`
raises `BadCmd`; the claim further says a response of `3` outside the two
telemetry-query commands raises `BadParam`, but the source raises `BadCmd`
there as well (its message text says "Invalid Parameter"); a response of
`3` to the telemetry queries `a`/`c` is a normal success payload. -/
theorem cmd_response3_raises_badCmd :
    (cmd "A" ",1.0,1.00,25.0,25.0,25.0,25.0,0" ⟨[], ["3"]⟩).1 = .error .badCmd ∧
    (cmd "A" ",1.0,1.00,25.0,25.0,25.0,25.0,0" ⟨[], ["3"]⟩).1 ≠ .error .badParam ∧
    (cmd "S" "" ⟨[], ["9"]⟩).1 = .error .badCmd ∧
    (cmd "a" "" ⟨[], ["3"]⟩).1 = .ok "a: 3\n" ∧
    (cmd "c" "" ⟨[], ["3"]⟩).1 = .ok "c: 3\n" := by
  decide

/-- C2: in the claim's scenario (three caller steps, a transport that fails
the third record of the first pass and succeeds thereafter), the upload
never performs a successful retry.  With the controller built by
`__init__` it raises `TypeError` before transmitting or resetting anything;
even with the pressure attributes repaired by hand to numbers, the first
`BadCmd` triggers one reset and the recursive retry then receives the same
list object, already padded in place to 11 records, so it raises
`MethodError` instead of resending the sequence. -/
theorem upload_retry_never_reaches_second_pass :
    (method (init 0 300 999) retrySteps true ⟨[], retryScript⟩).res
        = .error .typeError ∧
    (method (init 0 300 999) retrySteps true ⟨[], retryScript⟩).wire.sent = [] ∧
    (method (init 0 300 999) retrySteps true ⟨[], retryScript⟩).resets = 0 ∧
    (method ⟨.num 0, .num 300, .num 999⟩ retrySteps true ⟨[], retryScript⟩).res
        = .error .methodError ∧
    (method ⟨.num 0, .num 300, .num 999⟩ retrySteps true ⟨[], retryScript⟩).resets
        = 1 :=
  ⟨rfl, rfl, rfl, rfl, rfl⟩

/-- C3: for every step sequence of length at most 10, upload on a
controller built by `__init__` raises `TypeError` while constructing the
pressure-limit record (the pressure attributes hold the builtins `min` and
`max`, not the configured values), so no step record and no limit record is
ever transmitted. -/
theorem upload_typeErrors_before_sending (a b r : ℚ) (steps : List String)
    (retry : Bool) (w : Wire) (h : steps.length ≤ 10) :
    (method (init a b r) steps retry w).res = .error .typeError ∧
    (method (init a b r) steps retry w).wire = w := by
  have e1 := methodN_limit_none (init a b r) (if retry then 1 else 0) steps w 0
    (by omega) rfl
  unfold method
  rw [e1]
  exact ⟨rfl, rfl⟩

theorem upload_typeErrors_before_sending_witness :
    (method (init 0 300 999) [] true ⟨[], []⟩).res = .error .typeError ∧
    (method (init 0 300 999) [] true ⟨[], []⟩).wire = ⟨[], []⟩ :=
  upload_typeErrors_before_sending 0 300 999 [] true ⟨[], []⟩ (by decide)

/-- C4: for every step sequence of length greater than 10, upload fails
with `MethodError` and transmits nothing: the length check precedes every
command, and the step list is not even padded. -/
theorem upload_rejects_oversize (p : Pump) (steps : List String) (retry : Bool)
    (w : Wire) (h : steps.length > 10) :
    (method p steps retry w).res = .error .methodError ∧
    (method p steps retry w).wire = w ∧
    (method p steps retry w).stepsOut = steps := by
  unfold method
  rw [methodN_oversize p _ steps w 0 h]
  exact ⟨rfl, rfl, rfl⟩

theorem upload_rejects_oversize_witness :
    (method (init 0 300 999) (List.replicate 11 fillerStep) true ⟨[], []⟩).res
        = .error .methodError ∧
    (method (init 0 300 999) (List.replicate 11 fillerStep) true ⟨[], []⟩).wire
        = ⟨[], []⟩ ∧
    (method (init 0 300 999) (List.replicate 11 fillerStep) true ⟨[], []⟩).stepsOut
        = List.replicate 11 fillerStep :=
  upload_rejects_oversize (init 0 300 999) (List.replicate 11 fillerStep) true
    ⟨[], []⟩ (by decide)

/-- C5: `gradient` never emits any step: for every rate value (number or
tuple), time, proportions and curve, building the three step records raises
`TypeError`, because `c1_args = rate + tuple(initial_abcd)` requires `rate`
to be a tuple while the `%.2f` slot of the ramp record requires the same
`rate` to be a number. -/
theorem gradient_always_raises (t : ℚ) (rate : PyV) (initial final : List ℚ)
    (curve : ℚ) :
    gradientSteps t rate initial final curve = .error .typeError := by
  cases rate with
  | num q => rfl
  | tup l =>
    simp only [gradientSteps, pyAddTup]
    cases hf : fmtHold (l ++ initial) <;> rfl

/-- C6 counterexample: the curve value the ramp step carries is not always
in `{10, 20, ..., 90}`: the source clamps `curve` to `[1, 9]` without
rounding, so `curve = 3/2` is emitted as `15`. -/
theorem gradient_curve_not_decade :
    gradientCurveField (3/2) ∉ ([10, 20, 30, 40, 50, 60, 70, 80, 90] : List ℤ) := by
  have h15 : (10 : ℚ) * clampCurve (3/2) = 15 := by
    unfold clampCurve
    rw [if_neg (by norm_num), if_neg (by norm_num)]
    norm_num
  unfold gradientCurveField
  rw [h15]
  decide

/-- C6 amended: for every curve input, the emitted ramp curve value is the
truncation of ten times the clamp of `curve` to `[1, 9]`; it always lies in
the interval `[10, 90]`, inputs at most 0 give exactly 10 and inputs at
least 10 give exactly 90 (it is a multiple of ten only when the clamped
curve is an integer). -/
theorem gradient_curve_clamped_range (c : ℚ) :
    10 ≤ gradientCurveField c ∧ gradientCurveField c ≤ 90 ∧
    (c ≤ 0 → gradientCurveField c = 10) ∧ (10 ≤ c → gradientCurveField c = 90) := by
  have hcl : 1 ≤ clampCurve c ∧ clampCurve c ≤ 9 := by
    unfold clampCurve
    split
    · exact ⟨le_refl 1, by norm_num⟩
    · split
      · exact ⟨by norm_num, le_refl 9⟩
      · rename_i h1 h2
        exact ⟨le_of_not_lt h1, le_of_not_lt h2⟩
  have h0 : (0 : ℚ) ≤ 10 * clampCurve c := by linarith [hcl.1]
  have hfl : gradientCurveField c = ⌊10 * clampCurve c⌋ :=
    pyTrunc_eq_floor _ h0
  have hten : ((10 : ℤ) : ℚ) = (10 : ℚ) := by norm_num
  have hnin : ((90 : ℤ) : ℚ) = (90 : ℚ) := by norm_num
  refine ⟨?_, ?_, ?_, ?_⟩
  · rw [hfl]
    exact Int.le_floor.mpr (by rw [hten]; linarith [hcl.1])
  · rw [hfl]
    have h90 : 10 * clampCurve c ≤ (90 : ℚ) := by linarith [hcl.2]
    have hq := (Int.floor_le (10 * clampCurve c)).trans h90
    exact_mod_cast hq
  · intro hc
    have h1 : clampCurve c = 1 := by
      unfold clampCurve
      rw [if_pos (by linarith)]
    rw [hfl, h1, mul_one, ← hten, Int.floor_intCast]
  · intro hc
    have h9 : clampCurve c = 9 := by
      unfold clampCurve
      rw [if_neg (by linarith), if_pos (by linarith)]
    rw [hfl, h9, show (10 : ℚ) * 9 = ((90 : ℤ) : ℚ) by norm_num, Int.floor_intCast]

theorem gradient_curve_clamped_range_witness :
    gradientCurveField 11 = 90 :=
  (gradient_curve_clamped_range 11).2.2.2 (by norm_num)

/-- C7: whenever the four proportions handed to the step encoder do not sum
to 100, the emitted record carries `D = 100 - (A + B + C)` in the fourth
proportion slot, and the four emitted proportions sum to exactly 100. -/
theorem step_recomputes_D (t fl A B C D curve : ℚ) (h : A + B + C + D ≠ 100) :
    (stepRec t fl A B C D curve).pctD = 100 - (A + B + C) ∧
    (stepRec t fl A B C D curve).pctA + (stepRec t fl A B C D curve).pctB +
      (stepRec t fl A B C D curve).pctC + (stepRec t fl A B C D curve).pctD
      = 100 := by
  have hD : (stepRec t fl A B C D curve).pctD = 100 - (A + B + C) := by
    show (if A + B + C + D ≠ 100 then 100 - (A + B + C) else D) = 100 - (A + B + C)
    exact if_pos h
  refine ⟨hD, ?_⟩
  have hA : (stepRec t fl A B C D curve).pctA = A := rfl
  have hB : (stepRec t fl A B C D curve).pctB = B := rfl
  have hC : (stepRec t fl A B C D curve).pctC = C := rfl
  rw [hA, hB, hC, hD]
  ring

theorem step_recomputes_D_witness :
    (stepRec 1 1 10 20 30 0 0).pctD = 100 - (10 + 20 + 30) ∧
    (stepRec 1 1 10 20 30 0 0).pctA + (stepRec 1 1 10 20 30 0 0).pctB +
      (stepRec 1 1 10 20 30 0 0).pctC + (stepRec 1 1 10 20 30 0 0).pctD = 100 :=
  step_recomputes_D 1 1 10 20 30 0 0 (by norm_num)

/-- C8: on the device answer `",3,120,30,1.0,25,25,25,25,850"` to the
status query, `status` yields the comma-split field sequence, `state`
returns the integer 3 read from field index 1, and `pressure` returns the
integer 850 read from field index 9. -/
theorem status_sample_fields :
    status ⟨[], [",3,120,30,1.0,25,25,25,25,850"]⟩
      = (.ok ["e: ", "3", "120", "30", "1.0", "25", "25", "25", "25", "850"],
         ⟨["e\n"], []⟩) ∧
    state ⟨[], [",3,120,30,1.0,25,25,25,25,850"]⟩ = (.ok 3, ⟨["e\n"], []⟩) ∧
    pressure ⟨[], [",3,120,30,1.0,25,25,25,25,850"]⟩ = (.ok 850, ⟨["e\n"], []⟩) :=
  ⟨rfl, rfl, rfl⟩

/-- C9: `start` sends the start command `S` exactly when the state it just
queried is 0; in every other state it performs no write beyond the status
query that read the state. -/
theorem start_sends_S_only_in_state0 (w : Wire) (n : ℤ) (w' : Wire)
    (h : state w = (.ok n, w')) :
    (n ≠ 0 → start w = (.ok (), w')) ∧
    (n = 0 → start w = ((cmd "S" "" w').1.map fun _ => (), (cmd "S" "" w').2) ∧
      ((cmd "S" "" w').2).sent = w'.sent ++ ["S\n"]) := by
  constructor
  · intro hn
    unfold start
    rw [h]
    simp [hn]
  · intro hn
    subst hn
    unfold start
    rw [h]
    simp [cmd_sent]

theorem start_sends_S_only_in_state0_witness :
    start ⟨[], [",3,120,30,1.0,25,25,25,25,850"]⟩ = (.ok (), ⟨["e\n"], []⟩) :=
  (start_sends_S_only_in_state0 ⟨[], [",3,120,30,1.0,25,25,25,25,850"]⟩ 3
    ⟨["e\n"], []⟩ rfl).1 (by decide)

/-- C10 counterexample: after `_method` runs on the (empty) shared default
list, the list holds 10 entries, not the 11 the claim states: the
pressure-limit append is never reached because formatting that record with
the stored builtins raises `TypeError` first. -/
theorem method_default_list_not_eleven :
    ¬ ((method (init 0 300 999) [] true ⟨[], []⟩).stepsOut.length = 11) := by
  decide

/-- C10 amended: `_method` does mutate the caller's step list in place -
after a call with at most 10 steps the same list object holds exactly 10
entries, the caller's steps followed by the idle fillers; the pressure-limit
record is never appended (building it raises `TypeError`), so a second call
through the shared mutable default list passes the 10-step length check and
fails with the same `TypeError`, not with `MethodError`. -/
theorem method_pads_caller_list (a b r : ℚ) (steps : List String) (retry : Bool)
    (w w2 : Wire) (h : steps.length ≤ 10) :
    (method (init a b r) steps retry w).stepsOut
        = steps ++ List.replicate (10 - steps.length) fillerStep ∧
    (method (init a b r) steps retry w).stepsOut.length = 10 ∧
    (method (init a b r) ((method (init a b r) steps retry w).stepsOut) retry
        w2).res = .error .typeError := by
  have e1 := methodN_limit_none (init a b r) (if retry then 1 else 0) steps w 0
    (by omega) rfl
  have hlen : (steps ++ List.replicate (10 - steps.length) fillerStep).length
      = 10 := by
    simp only [List.length_append, List.length_replicate]
    omega
  refine ⟨?_, ?_, ?_⟩
  · unfold method
    rw [e1]
  · unfold method
    rw [e1]
    exact hlen
  · unfold method
    rw [e1]
    exact congrArg MOut.res (methodN_limit_none (init a b r)
      (if retry then 1 else 0) _ w2 0 (by rw [hlen]; omega) rfl) |>.trans rfl

theorem method_pads_caller_list_witness :
    (method (init 0 300 999) [] true ⟨[], []⟩).stepsOut
        = [] ++ List.replicate (10 - List.length ([] : List String)) fillerStep ∧
    (method (init 0 300 999) [] true ⟨[], []⟩).stepsOut.length = 10 ∧
    (method (init 0 300 999) ((method (init 0 300 999) [] true ⟨[], []⟩).stepsOut)
        true ⟨[], ["x"]⟩).res = .error .typeError :=
  method_pads_caller_list 0 300 999 [] true ⟨[], []⟩ ⟨[], ["x"]⟩ (by decide)

end PE200
